import Mathlib

/-!
Verification of the snowspot computation core: the snow quality scorer
(backend/app/services/quality_scorer.py) and the data fusion engine
(backend/app/services/data_fusion.py), embedded shallowly in Lean.

Conventions of the embedding:
  - Python floats are modelled as exact rationals (scorer) or reals
    (fusion, where an exponential decay `decay_rate ** age_hours` appears);
    every finite float is a rational, so the model domain covers the code.
  - `Optional[T]` becomes `Option T`; absent is `none`.
  - A Python expression that can raise is modelled in `Option`, `none`
    standing for the raised exception.
-/

namespace Snowspot

/-! ## Quality scorer (quality_scorer.py)

`SnowConditions` is a dataclass of five independently optional fields. -/

structure SnowConditions where
  new_snow_24h_in : Option ℚ
  temperature_f : Option ℚ
  wind_speed_mph : Option ℚ
  days_since_snow : Option ℤ
  humidity_percent : Option ℚ

/-- Embedding of `calculate_new_snow_score` (quality_scorer.py lines 23-47):
score 0-30 from new snow amount, `None` scoring 0. -/
def calculate_new_snow_score : Option ℚ → ℚ
  | none => 0
  | some new_snow_inches =>
    if new_snow_inches ≥ 12 then 30
    else if new_snow_inches ≥ 6 then 25
    else if new_snow_inches ≥ 3 then 20
    else if new_snow_inches ≥ 1 then 15
    else if new_snow_inches > 0 then 10
    else 0

/-- Embedding of `calculate_temperature_score` (lines 50-74). -/
def calculate_temperature_score : Option ℚ → ℚ
  | none => 0
  | some temperature_f =>
    if 15 ≤ temperature_f ∧ temperature_f ≤ 28 then 25
    else if 10 ≤ temperature_f ∧ temperature_f ≤ 32 then 20
    else if 5 ≤ temperature_f ∧ temperature_f ≤ 35 then 15
    else if temperature_f < 5 then 10
    else 5

/-- Embedding of `calculate_wind_score` (lines 77-102). -/
def calculate_wind_score : Option ℚ → ℚ
  | none => 0
  | some wind_speed_mph =>
    if wind_speed_mph < 0 then 0
    else if wind_speed_mph < 10 then 15
    else if wind_speed_mph < 20 then 10
    else if wind_speed_mph < 30 then 5
    else 0

/-- Embedding of `calculate_snow_age_score` (lines 105-132). -/
def calculate_snow_age_score : Option ℤ → ℚ
  | none => 0
  | some days_since_snow =>
    if days_since_snow < 0 then 0
    else if days_since_snow = 0 then 20
    else if days_since_snow = 1 then 15
    else if days_since_snow ≤ 3 then 10
    else if days_since_snow ≤ 7 then 5
    else 0

/-- Embedding of `calculate_humidity_score` (lines 135-160). -/
def calculate_humidity_score : Option ℚ → ℚ
  | none => 0
  | some humidity_percent =>
    if humidity_percent < 0 then 0
    else if humidity_percent < 30 then 10
    else if humidity_percent < 50 then 8
    else if humidity_percent < 70 then 5
    else 2

/-- Embedding of `calculate_quality_score` (lines 163-188): sum of the five
sub-scores, capped at 100. -/
def calculate_quality_score (conditions : SnowConditions) : ℚ :=
  min 100
    (calculate_new_snow_score conditions.new_snow_24h_in +
      calculate_temperature_score conditions.temperature_f +
      calculate_wind_score conditions.wind_speed_mph +
      calculate_snow_age_score conditions.days_since_snow +
      calculate_humidity_score conditions.humidity_percent)

/-- Embedding of `get_quality_description` (lines 191-214). -/
def get_quality_description (score : ℚ) : String :=
  if score ≥ 90 then "Epic Powder Day!"
  else if score ≥ 80 then "Excellent Conditions"
  else if score ≥ 70 then "Great Day to Ski"
  else if score ≥ 60 then "Good Conditions"
  else if score ≥ 50 then "Decent Skiing"
  else if score ≥ 40 then "Fair Conditions"
  else "Poor Conditions"

/-- Embedding of `calculate_with_description` (lines 217-229). -/
def calculate_with_description (conditions : SnowConditions) : ℚ × String :=
  (calculate_quality_score conditions,
    get_quality_description (calculate_quality_score conditions))

/-- C5: `calculate_new_snow_score` is exactly the step function
`x < 0 → 0`, `x = 0 → 0`, `(0,1) → 10`, `[1,3) → 15`, `[3,6) → 20`,
`[6,12) → 25`, `x ≥ 12 → 30`; it is non-decreasing on nonnegative inputs
and each breakpoint 1, 3, 6, 12 belongs to the higher bucket
(in particular `calculate_new_snow_score 1 = 15`). -/
theorem new_snow_score_step_function :
    (∀ x : ℚ, x < 0 → calculate_new_snow_score (some x) = 0) ∧
    calculate_new_snow_score (some 0) = 0 ∧
    (∀ x : ℚ, 0 < x → x < 1 → calculate_new_snow_score (some x) = 10) ∧
    (∀ x : ℚ, 1 ≤ x → x < 3 → calculate_new_snow_score (some x) = 15) ∧
    (∀ x : ℚ, 3 ≤ x → x < 6 → calculate_new_snow_score (some x) = 20) ∧
    (∀ x : ℚ, 6 ≤ x → x < 12 → calculate_new_snow_score (some x) = 25) ∧
    (∀ x : ℚ, 12 ≤ x → calculate_new_snow_score (some x) = 30) ∧
    (∀ x y : ℚ, 0 ≤ x → x ≤ y →
      calculate_new_snow_score (some x) ≤ calculate_new_snow_score (some y)) ∧
    calculate_new_snow_score (some 1) = 15 ∧
    calculate_new_snow_score (some 3) = 20 ∧
    calculate_new_snow_score (some 6) = 25 ∧
    calculate_new_snow_score (some 12) = 30 := by
  refine ⟨?_, by norm_num [calculate_new_snow_score], ?_, ?_, ?_, ?_, ?_, ?_,
    by norm_num [calculate_new_snow_score], by norm_num [calculate_new_snow_score],
    by norm_num [calculate_new_snow_score], by norm_num [calculate_new_snow_score]⟩ <;>
    intro x
  · intro hx
    simp only [calculate_new_snow_score]
    split_ifs <;> linarith
  · intro h0 h1
    simp only [calculate_new_snow_score]
    split_ifs <;> linarith
  · intro h1 h3
    simp only [calculate_new_snow_score]
    split_ifs <;> linarith
  · intro h3 h6
    simp only [calculate_new_snow_score]
    split_ifs <;> linarith
  · intro h6 h12
    simp only [calculate_new_snow_score]
    split_ifs <;> linarith
  · intro h12
    simp only [calculate_new_snow_score]
    split_ifs <;> linarith
  · intro y hx hxy
    simp only [calculate_new_snow_score]
    split_ifs <;> linarith

/-- Witness for C5: the interval hypotheses are satisfiable; evaluation at
concrete inputs inside each bucket. -/
theorem new_snow_score_step_function_witness :
    calculate_new_snow_score (some (-2)) = 0 ∧
    calculate_new_snow_score (some (1/2)) = 10 ∧
    calculate_new_snow_score (some 2) = 15 ∧
    calculate_new_snow_score (some 4) = 20 ∧
    calculate_new_snow_score (some 7) = 25 ∧
    calculate_new_snow_score (some 13) = 30 ∧
    calculate_new_snow_score (some 2) ≤ calculate_new_snow_score (some 5) :=
  ⟨new_snow_score_step_function.1 (-2) (by norm_num),
    new_snow_score_step_function.2.2.1 (1/2) (by norm_num) (by norm_num),
    new_snow_score_step_function.2.2.2.1 2 (by norm_num) (by norm_num),
    new_snow_score_step_function.2.2.2.2.1 4 (by norm_num) (by norm_num),
    new_snow_score_step_function.2.2.2.2.2.1 7 (by norm_num) (by norm_num),
    new_snow_score_step_function.2.2.2.2.2.2.1 13 (by norm_num),
    new_snow_score_step_function.2.2.2.2.2.2.2.1 2 5 (by norm_num) (by norm_num)⟩

/-- Each sub-score is bounded: new snow in [0,30], temperature in [0,25],
wind in [0,15], snow age in [0,20], humidity in [0,10]. -/
theorem sub_scores_bounded (conditions : SnowConditions) :
    (0 ≤ calculate_new_snow_score conditions.new_snow_24h_in ∧
      calculate_new_snow_score conditions.new_snow_24h_in ≤ 30) ∧
    (0 ≤ calculate_temperature_score conditions.temperature_f ∧
      calculate_temperature_score conditions.temperature_f ≤ 25) ∧
    (0 ≤ calculate_wind_score conditions.wind_speed_mph ∧
      calculate_wind_score conditions.wind_speed_mph ≤ 15) ∧
    (0 ≤ calculate_snow_age_score conditions.days_since_snow ∧
      calculate_snow_age_score conditions.days_since_snow ≤ 20) ∧
    (0 ≤ calculate_humidity_score conditions.humidity_percent ∧
      calculate_humidity_score conditions.humidity_percent ≤ 10) := by
  refine ⟨?_, ?_, ?_, ?_, ?_⟩
  · cases conditions.new_snow_24h_in with
    | none => norm_num [calculate_new_snow_score]
    | some x =>
      simp only [calculate_new_snow_score]
      split_ifs <;> norm_num
  · cases conditions.temperature_f with
    | none => norm_num [calculate_temperature_score]
    | some x =>
      simp only [calculate_temperature_score]
      split_ifs <;> norm_num
  · cases conditions.wind_speed_mph with
    | none => norm_num [calculate_wind_score]
    | some x =>
      simp only [calculate_wind_score]
      split_ifs <;> norm_num
  · cases conditions.days_since_snow with
    | none => norm_num [calculate_snow_age_score]
    | some x =>
      simp only [calculate_snow_age_score]
      split_ifs <;> norm_num
  · cases conditions.humidity_percent with
    | none => norm_num [calculate_humidity_score]
    | some x =>
      simp only [calculate_humidity_score]
      split_ifs <;> norm_num

/-- C10: every sub-score lies in [0, factor maximum] (30/25/15/20/10), so the
unclamped sum already lies in [0,100] and the `min 100` cap in
`calculate_quality_score` never changes the value: the score equals the raw
sum of the five sub-scores on every input. -/
theorem quality_score_cap_never_binds (conditions : SnowConditions) :
    (0 ≤ calculate_new_snow_score conditions.new_snow_24h_in ∧
      calculate_new_snow_score conditions.new_snow_24h_in ≤ 30) ∧
    (0 ≤ calculate_temperature_score conditions.temperature_f ∧
      calculate_temperature_score conditions.temperature_f ≤ 25) ∧
    (0 ≤ calculate_wind_score conditions.wind_speed_mph ∧
      calculate_wind_score conditions.wind_speed_mph ≤ 15) ∧
    (0 ≤ calculate_snow_age_score conditions.days_since_snow ∧
      calculate_snow_age_score conditions.days_since_snow ≤ 20) ∧
    (0 ≤ calculate_humidity_score conditions.humidity_percent ∧
      calculate_humidity_score conditions.humidity_percent ≤ 10) ∧
    calculate_quality_score conditions =
      calculate_new_snow_score conditions.new_snow_24h_in +
        calculate_temperature_score conditions.temperature_f +
        calculate_wind_score conditions.wind_speed_mph +
        calculate_snow_age_score conditions.days_since_snow +
        calculate_humidity_score conditions.humidity_percent := by
  obtain ⟨h1, h2, h3, h4, h5⟩ := sub_scores_bounded conditions
  refine ⟨h1, h2, h3, h4, h5, ?_⟩
  unfold calculate_quality_score
  exact min_eq_right (by linarith [h1.2, h2.2, h3.2, h4.2, h5.2])

/-- C2: `calculate_with_description` returns the pair `(s, t)` where `s` is
the sum of the five sub-scores (absent fields scoring 0) capped at 100, and
`t` is determined from `s` by the seven thresholds, highest first; the
all-absent input yields `(0, "Poor Conditions")`, and the function is total
(no input is rejected). -/
theorem calculate_with_description_spec :
    (∀ conditions : SnowConditions,
      calculate_with_description conditions =
        (min 100
          (calculate_new_snow_score conditions.new_snow_24h_in +
            calculate_temperature_score conditions.temperature_f +
            calculate_wind_score conditions.wind_speed_mph +
            calculate_snow_age_score conditions.days_since_snow +
            calculate_humidity_score conditions.humidity_percent),
          get_quality_description (calculate_quality_score conditions))) ∧
    (∀ s : ℚ, 90 ≤ s → get_quality_description s = "Epic Powder Day!") ∧
    (∀ s : ℚ, 80 ≤ s → s < 90 → get_quality_description s = "Excellent Conditions") ∧
    (∀ s : ℚ, 70 ≤ s → s < 80 → get_quality_description s = "Great Day to Ski") ∧
    (∀ s : ℚ, 60 ≤ s → s < 70 → get_quality_description s = "Good Conditions") ∧
    (∀ s : ℚ, 50 ≤ s → s < 60 → get_quality_description s = "Decent Skiing") ∧
    (∀ s : ℚ, 40 ≤ s → s < 50 → get_quality_description s = "Fair Conditions") ∧
    (∀ s : ℚ, s < 40 → get_quality_description s = "Poor Conditions") ∧
    calculate_with_description ⟨none, none, none, none, none⟩ =
      (0, "Poor Conditions") := by
  refine ⟨fun conditions => rfl, ?_, ?_, ?_, ?_, ?_, ?_, ?_,
    by norm_num [calculate_with_description, calculate_quality_score,
      calculate_new_snow_score, calculate_temperature_score, calculate_wind_score,
      calculate_snow_age_score, calculate_humidity_score, get_quality_description]⟩ <;>
      intro s <;> intro hs <;>
    first
      | (intro hs2
         simp only [get_quality_description]
         split_ifs <;> first | rfl | linarith)
      | (simp only [get_quality_description]
         split_ifs <;> first | rfl | linarith)

/-- Witness for C2: the threshold hypotheses discharged at concrete scores. -/
theorem calculate_with_description_spec_witness :
    calculate_with_description ⟨some 14, some 22, some 5, some 0, some 20⟩ =
      (min 100 (30 + 25 + 15 + 20 + 10),
        get_quality_description
          (calculate_quality_score ⟨some 14, some 22, some 5, some 0, some 20⟩)) ∧
    get_quality_description 95 = "Epic Powder Day!" ∧
    get_quality_description 85 = "Excellent Conditions" ∧
    get_quality_description 75 = "Great Day to Ski" ∧
    get_quality_description 65 = "Good Conditions" ∧
    get_quality_description 55 = "Decent Skiing" ∧
    get_quality_description 45 = "Fair Conditions" ∧
    get_quality_description 7 = "Poor Conditions" :=
  ⟨by
    have h := calculate_with_description_spec.1 ⟨some 14, some 22, some 5, some 0, some 20⟩
    rw [h]
    norm_num [calculate_new_snow_score, calculate_temperature_score,
      calculate_wind_score, calculate_snow_age_score, calculate_humidity_score],
    calculate_with_description_spec.2.1 95 (by norm_num),
    calculate_with_description_spec.2.2.1 85 (by norm_num) (by norm_num),
    calculate_with_description_spec.2.2.2.1 75 (by norm_num) (by norm_num),
    calculate_with_description_spec.2.2.2.2.1 65 (by norm_num) (by norm_num),
    calculate_with_description_spec.2.2.2.2.2.1 55 (by norm_num) (by norm_num),
    calculate_with_description_spec.2.2.2.2.2.2.1 45 (by norm_num) (by norm_num),
    calculate_with_description_spec.2.2.2.2.2.2.2.1 7 (by norm_num)⟩

/-! ## Data fusion (data_fusion.py)

Reals are used here because the age decay is a real exponential
`decay_rate ** age_hours`. A Python `datetime` is modelled as a wall-clock
reading in seconds together with an optional UTC offset in seconds (`none`
for a timezone-naive value); an aware value denotes the absolute instant
`wall - offset`. -/

noncomputable section

structure Datetime where
  wall : ℝ
  tz : Option ℝ

/-- Python `datetime` subtraction in seconds: defined when both operands are
naive or both aware; subtracting a naive from an aware instant (or vice
versa) raises `TypeError`, modelled as `none`. -/
def dtSub (a b : Datetime) : Option ℝ :=
  match a.tz, b.tz with
  | none, none => some (a.wall - b.wall)
  | some oa, some ob => some ((a.wall - oa) - (b.wall - ob))
  | _, _ => none

/-- Python `d.replace(tzinfo=timezone.utc)`: keep the wall-clock fields and
attach the UTC offset. -/
def setTzUTC (d : Datetime) : Datetime := ⟨d.wall, some 0⟩

/-- Absolute instant of a `Datetime` in seconds when any naive value is
interpreted as UTC (the spec's `_utc` reading). -/
def toUTCSeconds (d : Datetime) : ℝ := d.wall - (d.tz.getD 0)

/-- Embedding of `calculate_age_hours` (data_fusion.py lines 53-76): naive
operands get UTC attached, then `(current_time - timestamp)` is converted
to hours. The `current_time=None` default (wall-clock read) is resolved by
the caller, so `current_time` is an explicit parameter here. `none` models
a raised exception from the subtraction. -/
def calculate_age_hours (timestamp current_time : Datetime) : Option ℝ :=
  let ts := if timestamp.tz = none then setTzUTC timestamp else timestamp
  let ct := if current_time.tz = none then setTzUTC current_time else current_time
  (dtSub ct ts).map (fun s => s / 3600)

/-- Age in hours with naive values interpreted as UTC: the closed form the
spec gives for `calculate_age_hours`. -/
def ageHoursUTC (timestamp current_time : Datetime) : ℝ :=
  (toUTCSeconds current_time - toUTCSeconds timestamp) / 3600

/-- Embedding of `calculate_age_factor` (lines 79-92): 1 for future
timestamps, otherwise the real exponential `decay_rate ^ age_hours`.
The Python default `decay_rate=DECAY_RATE` is passed explicitly. -/
def calculate_age_factor (age_hours : ℝ) (decay_rate : ℝ) : ℝ :=
  if age_hours < 0 then 1 else decay_rate ^ age_hours

/-- Embedding of `calculate_effective_weight` (lines 95-109). -/
def calculate_effective_weight (base_weight confidence age_factor : ℝ) : ℝ :=
  base_weight * confidence * age_factor

/-- Embedding of `SOURCE_WEIGHTS.get(source_name, default)` over the dict
literal at data_fusion.py lines 14-18. -/
def sourceWeightsGet (source_name : String) (default : ℝ) : ℝ :=
  if source_name = "resort_official" then 0.5
  else if source_name = "snotel" then 0.4
  else if source_name = "weather_api" then 0.1
  else default

/-- Embedding of the module constant `DECAY_RATE` (line 21). -/
def DECAY_RATE : ℝ := 0.95

/-- Embedding of the module constant `DEFAULT_MAX_AGE_HOURS` (line 24). -/
def DEFAULT_MAX_AGE_HOURS : ℤ := 24

structure DataSource where
  source_name : String
  value : ℝ
  timestamp : Datetime
  confidence : ℝ
  weight : Option ℝ

/-- Construction of a `DataSource` through the dataclass constructor: Python
always runs `__post_init__` (lines 37-40), which replaces a `None` weight by
the `SOURCE_WEIGHTS` lookup with default 0.1. -/
def DataSource.create (source_name : String) (value : ℝ) (timestamp : Datetime)
    (confidence : ℝ) (weight : Option ℝ) : DataSource :=
  ⟨source_name, value, timestamp, confidence,
    match weight with
    | none => some (sourceWeightsGet source_name 0.1)
    | some w => some w⟩

structure FusionResult where
  best_estimate : ℝ
  confidence : ℝ
  sources_used : ℕ
  total_sources : ℕ

/-- Embedding of `get_source_weight` (lines 209-219). -/
def get_source_weight (source_name : String) : ℝ :=
  sourceWeightsGet source_name 0.1

/-- Embedding of `create_data_source` (lines 222-248): resolves a `None`
weight through `get_source_weight` before calling the constructor. -/
def create_data_source (source_name : String) (value : ℝ) (timestamp : Datetime)
    (confidence : ℝ) (weight : Option ℝ) : DataSource :=
  DataSource.create source_name value timestamp confidence
    (some (match weight with
      | none => get_source_weight source_name
      | some w => w))

/-- Loop state of `fuse_measurements` (lines 141-144): the four accumulators
`weighted_sum`, `total_weight`, `sources_used`, `total_base_weight`. -/
structure FuseState where
  weighted_sum : ℝ
  total_weight : ℝ
  sources_used : ℕ
  total_base_weight : ℝ

/-- Weight resolution at data_fusion.py line 148: the stored weight when
present, else the `SOURCE_WEIGHTS` lookup. -/
def resolvedWeight (source : DataSource) : ℝ :=
  match source.weight with
  | some w => w
  | none => sourceWeightsGet source.source_name 0.1

/-- Body of the `for source in sources` loop of `fuse_measurements`
(lines 146-167) once `age_hours` is known: add the base weight, skip sources
older than `max_age_hours`, otherwise accumulate the effective weight. -/
def fuseBody (max_age_hours : ℤ) (decay_rate : ℝ) (st : FuseState)
    (source : DataSource) (age_hours : ℝ) : FuseState :=
  let weight := resolvedWeight source
  let st1 : FuseState :=
    ⟨st.weighted_sum, st.total_weight, st.sources_used, st.total_base_weight + weight⟩
  if age_hours > (max_age_hours : ℝ) then st1
  else
    let age_factor := calculate_age_factor age_hours decay_rate
    let effective_weight := calculate_effective_weight weight source.confidence age_factor
    ⟨st1.weighted_sum + source.value * effective_weight,
      st1.total_weight + effective_weight,
      st1.sources_used + 1,
      st1.total_base_weight⟩

/-- One iteration of the loop of `fuse_measurements`: the age computation
(whose `none` propagates a raised exception) followed by the body. -/
def fuseStep (max_age_hours : ℤ) (current_time : Datetime) (decay_rate : ℝ)
    (st : FuseState) (source : DataSource) : Option FuseState :=
  (calculate_age_hours source.timestamp current_time).map
    (fuseBody max_age_hours decay_rate st source)

/-- Embedding of `fuse_measurements` (lines 112-184). The outer `Option`
models exceptions (`none` = an exception escaped); the inner `Option` is the
function's own `None` result. The Python defaults
(`max_age_hours=DEFAULT_MAX_AGE_HOURS`, `current_time=None` resolved to the
caller's clock, `decay_rate=DECAY_RATE`) are passed explicitly. -/
def fuse_measurements (sources : List DataSource) (max_age_hours : ℤ)
    (current_time : Datetime) (decay_rate : ℝ) : Option (Option FusionResult) :=
  match sources with
  | [] => some none
  | _ :: _ =>
    match sources.foldlM (fuseStep max_age_hours current_time decay_rate) ⟨0, 0, 0, 0⟩ with
    | none => none
    | some st =>
      if st.total_weight = 0 ∨ st.sources_used = 0 then some none
      else
        some (some ⟨st.weighted_sum / st.total_weight,
          if st.total_base_weight > 0 then min 1 (st.total_weight / st.total_base_weight)
          else 0,
          st.sources_used, sources.length⟩)

/-- Exception-free form of `fuseStep`, using the closed form of
`calculate_age_hours`; proved equal to `fuseStep` below. -/
def fuseStepTotal (max_age_hours : ℤ) (current_time : Datetime) (decay_rate : ℝ)
    (st : FuseState) (source : DataSource) : FuseState :=
  fuseBody max_age_hours decay_rate st source (ageHoursUTC source.timestamp current_time)

/-- Final loop state of `fuse_measurements` on a source list. -/
def fuseFold (sources : List DataSource) (max_age_hours : ℤ)
    (current_time : Datetime) (decay_rate : ℝ) : FuseState :=
  sources.foldl (fuseStepTotal max_age_hours current_time decay_rate) ⟨0, 0, 0, 0⟩

end

lemma calculate_age_hours_eq (timestamp current_time : Datetime) :
    calculate_age_hours timestamp current_time =
      some (ageHoursUTC timestamp current_time) := by
  rcases timestamp with ⟨w1, tz1⟩
  rcases current_time with ⟨w2, tz2⟩
  rcases tz1 with _ | o1 <;> rcases tz2 with _ | o2 <;>
    simp [calculate_age_hours, setTzUTC, dtSub, ageHoursUTC, toUTCSeconds]

lemma fuseStep_eq_total (max_age_hours : ℤ) (current_time : Datetime)
    (decay_rate : ℝ) (st : FuseState) (source : DataSource) :
    fuseStep max_age_hours current_time decay_rate st source =
      some (fuseStepTotal max_age_hours current_time decay_rate st source) := by
  unfold fuseStep fuseStepTotal
  rw [calculate_age_hours_eq, Option.map_some']

lemma foldlM_fuseStep (max_age_hours : ℤ) (current_time : Datetime)
    (decay_rate : ℝ) (sources : List DataSource) :
    ∀ st : FuseState,
      sources.foldlM (fuseStep max_age_hours current_time decay_rate) st =
        some (sources.foldl (fuseStepTotal max_age_hours current_time decay_rate) st) := by
  induction sources with
  | nil => intro st; rfl
  | cons s l ih =>
    intro st
    rw [List.foldlM_cons, fuseStep_eq_total, List.foldl_cons]
    simpa using ih (fuseStepTotal max_age_hours current_time decay_rate st s)

/-- Evaluation of `fuse_measurements` through the exception-free loop. -/
lemma fuse_measurements_eq (sources : List DataSource) (max_age_hours : ℤ)
    (current_time : Datetime) (decay_rate : ℝ) :
    fuse_measurements sources max_age_hours current_time decay_rate =
      some (match sources with
        | [] => none
        | _ :: _ =>
          let st := fuseFold sources max_age_hours current_time decay_rate
          if st.total_weight = 0 ∨ st.sources_used = 0 then none
          else
            some ⟨st.weighted_sum / st.total_weight,
              if st.total_base_weight > 0 then min 1 (st.total_weight / st.total_base_weight)
              else 0,
              st.sources_used, sources.length⟩) := by
  match sources with
  | [] => rfl
  | s :: l =>
    unfold fuse_measurements
    rw [foldlM_fuseStep]
    simp only [fuseFold]
    split_ifs <;> rfl

lemma ageHoursUTC_self (n : Datetime) : ageHoursUTC n n = 0 := by
  simp [ageHoursUTC]

lemma calculate_age_factor_zero (d : ℝ) : calculate_age_factor 0 d = 1 := by
  simp [calculate_age_factor, Real.rpow_zero]

lemma calculate_age_factor_nonneg (a : ℝ) {d : ℝ} (hd : 0 ≤ d) :
    0 ≤ calculate_age_factor a d := by
  unfold calculate_age_factor
  split_ifs
  · norm_num
  · exact Real.rpow_nonneg hd a

/-- A source whose age is zero passes the filter (for nonnegative
`max_age_hours`) and contributes `weight * confidence` of effective
weight. -/
lemma fuseStepTotal_fresh (m : ℤ) (n : Datetime) (d : ℝ) (st : FuseState)
    (source : DataSource) (h0 : ageHoursUTC source.timestamp n = 0) (hm : 0 ≤ m) :
    fuseStepTotal m n d st source =
      ⟨st.weighted_sum + source.value * (resolvedWeight source * source.confidence),
        st.total_weight + resolvedWeight source * source.confidence,
        st.sources_used + 1,
        st.total_base_weight + resolvedWeight source⟩ := by
  unfold fuseStepTotal fuseBody
  rw [h0]
  rw [if_neg (not_lt.mpr (show ((m : ℝ)) ≥ 0 by exact_mod_cast hm))]
  simp [calculate_effective_weight, calculate_age_factor_zero]

/-- A source older than `max_age_hours` only adds its base weight. -/
lemma fuseStepTotal_stale (m : ℤ) (n : Datetime) (d : ℝ) (st : FuseState)
    (source : DataSource) (h : ageHoursUTC source.timestamp n > (m : ℝ)) :
    fuseStepTotal m n d st source =
      ⟨st.weighted_sum, st.total_weight, st.sources_used,
        st.total_base_weight + resolvedWeight source⟩ := by
  unfold fuseStepTotal fuseBody
  rw [if_pos h]

/-- Fusing one fresh (age zero) full-confidence source returns its value
with confidence 1. -/
lemma fuse_single_fresh (name : String) (v : ℝ) (ts n : Datetime) (w : ℝ)
    (m : ℤ) (d : ℝ) (h0 : ageHoursUTC ts n = 0) (hm : 0 ≤ m) (hw : 0 < w) :
    fuse_measurements [⟨name, v, ts, 1, some w⟩] m n d =
      some (some ⟨v, 1, 1, 1⟩) := by
  rw [fuse_measurements_eq]
  have hw' : w ≠ 0 := ne_of_gt hw
  have hfold : fuseFold [⟨name, v, ts, 1, some w⟩] m n d = ⟨v * w, w, 1, w⟩ := by
    unfold fuseFold
    rw [List.foldl_cons, List.foldl_nil,
      fuseStepTotal_fresh m n d ⟨0, 0, 0, 0⟩ ⟨name, v, ts, 1, some w⟩ h0 hm]
    simp only [FuseState.mk.injEq, resolvedWeight]
    refine ⟨by ring, by ring, trivial, by ring⟩
  rw [hfold]
  rw [if_neg (by simp [hw'])]
  rw [if_pos (show (⟨v * w, w, 1, w⟩ : FuseState).total_base_weight > 0 from hw)]
  have hbest : (⟨v * w, w, 1, w⟩ : FuseState).weighted_sum /
      (⟨v * w, w, 1, w⟩ : FuseState).total_weight = v :=
    mul_div_cancel_right₀ v hw'
  have hconf : min 1 ((⟨v * w, w, 1, w⟩ : FuseState).total_weight /
      (⟨v * w, w, 1, w⟩ : FuseState).total_base_weight) = 1 := by
    rw [show (⟨v * w, w, 1, w⟩ : FuseState).total_weight /
      (⟨v * w, w, 1, w⟩ : FuseState).total_base_weight = w / w from rfl, div_self hw']
    exact min_self 1
  rw [hbest, hconf]
  rfl

/-- The `total_base_weight` accumulator sums the resolved base weight of
every source, regardless of age. -/
lemma fuseFold_total_base (m : ℤ) (n : Datetime) (d : ℝ)
    (sources : List DataSource) :
    ∀ st : FuseState,
      (sources.foldl (fuseStepTotal m n d) st).total_base_weight =
        st.total_base_weight + (sources.map resolvedWeight).sum := by
  induction sources with
  | nil => intro st; simp
  | cons s l ih =>
    intro st
    rw [List.foldl_cons, ih]
    have hstep : (fuseStepTotal m n d st s).total_base_weight =
        st.total_base_weight + resolvedWeight s := by
      unfold fuseStepTotal fuseBody
      split_ifs <;> rfl
    rw [hstep, List.map_cons, List.sum_cons]
    ring

/-- Cons form of the evaluation lemma for `fuse_measurements`. -/
lemma fuse_measurements_cons (s : DataSource) (l : List DataSource) (m : ℤ)
    (n : Datetime) (d : ℝ) :
    fuse_measurements (s :: l) m n d =
      some (if (fuseFold (s :: l) m n d).total_weight = 0 ∨
          (fuseFold (s :: l) m n d).sources_used = 0 then none
        else
          some ⟨(fuseFold (s :: l) m n d).weighted_sum /
              (fuseFold (s :: l) m n d).total_weight,
            if (fuseFold (s :: l) m n d).total_base_weight > 0 then
              min 1 ((fuseFold (s :: l) m n d).total_weight /
                (fuseFold (s :: l) m n d).total_base_weight)
            else 0,
            (fuseFold (s :: l) m n d).sources_used, (s :: l).length⟩) := by
  rw [fuse_measurements_eq]

/-- The loop keeps `total_weight` nonnegative (for nonnegative weights,
confidences and decay rate) and adds at most one to `sources_used` per
source. -/
lemma fuseFold_invariants (m : ℤ) (n : Datetime) (d : ℝ) (hd : 0 ≤ d)
    (sources : List DataSource)
    (hs : ∀ s ∈ sources, 0 ≤ resolvedWeight s ∧ 0 ≤ s.confidence) :
    ∀ st : FuseState, 0 ≤ st.total_weight →
      0 ≤ (sources.foldl (fuseStepTotal m n d) st).total_weight ∧
      (sources.foldl (fuseStepTotal m n d) st).sources_used ≤
        st.sources_used + sources.length := by
  induction sources with
  | nil => intro st h; exact ⟨h, by simp⟩
  | cons s l ih =>
    intro st hst
    have hsrc := hs s (List.mem_cons_self s l)
    have hl : ∀ x ∈ l, 0 ≤ resolvedWeight x ∧ 0 ≤ x.confidence :=
      fun x hx => hs x (List.mem_cons_of_mem s hx)
    have heff : 0 ≤ calculate_effective_weight (resolvedWeight s) s.confidence
        (calculate_age_factor (ageHoursUTC s.timestamp n) d) :=
      mul_nonneg (mul_nonneg hsrc.1 hsrc.2) (calculate_age_factor_nonneg _ hd)
    have hstep_tw : 0 ≤ (fuseStepTotal m n d st s).total_weight := by
      simp only [fuseStepTotal, fuseBody]
      split_ifs
      · exact hst
      · simpa using add_nonneg hst heff
    have hstep_used : (fuseStepTotal m n d st s).sources_used ≤ st.sources_used + 1 := by
      simp only [fuseStepTotal, fuseBody]
      split_ifs <;> simp
    obtain ⟨h1, h2⟩ := ih hl (fuseStepTotal m n d st s) hstep_tw
    refine ⟨by rw [List.foldl_cons]; exact h1, ?_⟩
    rw [List.foldl_cons, List.length_cons]
    omega

/-! ## Claims about the fusion engine -/

/-- C3: `fuse_measurements` is total — every input yields a value rather
than an exception (the outer `Option` never ends `none`) — and it returns
the no-data result exactly when the source list is empty or the loop ends
with zero accumulated effective weight or zero sources used. -/
theorem fuse_total_and_none_iff :
    ∀ (sources : List DataSource) (m : ℤ) (n : Datetime) (d : ℝ),
      (∃ r, fuse_measurements sources m n d = some r) ∧
      (fuse_measurements sources m n d = some none ↔
        sources = [] ∨ (fuseFold sources m n d).total_weight = 0 ∨
          (fuseFold sources m n d).sources_used = 0) := by
  intro sources m n d
  refine ⟨⟨_, fuse_measurements_eq sources m n d⟩, ?_⟩
  cases sources with
  | nil =>
    simp [show fuse_measurements [] m n d = some none from rfl]
  | cons s l =>
    rw [fuse_measurements_cons]
    simp only [Option.some.injEq]
    constructor
    · intro h
      by_cases hc : (fuseFold (s :: l) m n d).total_weight = 0 ∨
          (fuseFold (s :: l) m n d).sources_used = 0
      · exact Or.inr hc
      · rw [if_neg hc] at h
        exact absurd h (by simp)
    · intro h
      rcases h with h | h
      · exact absurd h (by simp)
      · rw [if_pos h]

/-- C4: a single source with confidence 1, timestamp equal to the current
time (age zero) and positive weight fuses to its own value with
confidence 1. -/
theorem single_source_full_confidence (name : String) (v : ℝ) (n : Datetime)
    (w : ℝ) (m : ℤ) (d : ℝ) (hw : 0 < w) (hm : 0 ≤ m) :
    fuse_measurements [⟨name, v, n, 1, some w⟩] m n d =
      some (some ⟨v, 1, 1, 1⟩) :=
  fuse_single_fresh name v n n w m d (ageHoursUTC_self n) hm hw

/-- Witness for C4: concrete single fresh source under the default
parameters. -/
theorem single_source_full_confidence_witness :
    fuse_measurements [⟨"resort_official", 5, ⟨0, none⟩, 1, some (1/2)⟩]
        DEFAULT_MAX_AGE_HOURS ⟨0, none⟩ DECAY_RATE =
      some (some ⟨5, 1, 1, 1⟩) :=
  single_source_full_confidence "resort_official" 5 ⟨0, none⟩ (1/2)
    DEFAULT_MAX_AGE_HOURS DECAY_RATE (by norm_num)
    (by norm_num [DEFAULT_MAX_AGE_HOURS])

/-- C6: every result of `fuse_measurements` on sources with nonnegative
(resolved) weights and confidences, for a nonnegative decay rate, has
confidence in [0,1], `1 ≤ sources_used ≤ total_sources`, and
`total_sources` equal to the input length. -/
theorem fusion_result_invariants :
    ∀ (sources : List DataSource) (m : ℤ) (n : Datetime) (d : ℝ) (r : FusionResult),
      (∀ s ∈ sources, 0 ≤ resolvedWeight s ∧ 0 ≤ s.confidence) → 0 ≤ d →
      fuse_measurements sources m n d = some (some r) →
      0 ≤ r.confidence ∧ r.confidence ≤ 1 ∧ 1 ≤ r.sources_used ∧
        r.sources_used ≤ sources.length ∧ r.total_sources = sources.length := by
  intro sources m n d r hs hd hr
  cases sources with
  | nil =>
    rw [show fuse_measurements [] m n d = some none from rfl] at hr
    simp at hr
  | cons s l =>
    rw [fuse_measurements_cons] at hr
    by_cases hc : (fuseFold (s :: l) m n d).total_weight = 0 ∨
        (fuseFold (s :: l) m n d).sources_used = 0
    · rw [if_pos hc] at hr
      simp at hr
    · rw [if_neg hc] at hr
      simp only [Option.some.injEq] at hr
      obtain ⟨htw0, hused0⟩ := not_or.mp hc
      obtain ⟨h0tw, hle⟩ := fuseFold_invariants m n d hd (s :: l) hs
        ⟨0, 0, 0, 0⟩ le_rfl
      subst hr
      refine ⟨?_, ?_, ?_, ?_, rfl⟩
      · split_ifs with hb
        · exact le_min (by norm_num) (div_nonneg h0tw hb.le)
        · exact le_rfl
      · split_ifs with hb
        · exact min_le_left 1 _
        · exact zero_le_one
      · exact Nat.one_le_iff_ne_zero.mpr hused0
      · simpa using hle

/-- Witness for C6: the invariant instantiated on a concrete single-source
fusion. -/
theorem fusion_result_invariants_witness :
    0 ≤ (FusionResult.mk 5 1 1 1).confidence ∧
      (FusionResult.mk 5 1 1 1).confidence ≤ 1 ∧
      1 ≤ (FusionResult.mk 5 1 1 1).sources_used ∧
      (FusionResult.mk 5 1 1 1).sources_used ≤
        ([⟨"resort_official", 5, ⟨0, none⟩, 1, some (1/2)⟩] : List DataSource).length ∧
      (FusionResult.mk 5 1 1 1).total_sources =
        ([⟨"resort_official", 5, ⟨0, none⟩, 1, some (1/2)⟩] : List DataSource).length :=
  fusion_result_invariants [⟨"resort_official", 5, ⟨0, none⟩, 1, some (1/2)⟩]
    DEFAULT_MAX_AGE_HOURS ⟨0, none⟩ DECAY_RATE ⟨5, 1, 1, 1⟩
    (by
      intro s hs
      rw [List.mem_singleton] at hs
      subst hs
      norm_num [resolvedWeight])
    (by norm_num [DECAY_RATE])
    (fuse_single_fresh "resort_official" 5 ⟨0, none⟩ ⟨0, none⟩ (1/2)
      DEFAULT_MAX_AGE_HOURS DECAY_RATE (ageHoursUTC_self ⟨0, none⟩)
      (by norm_num [DEFAULT_MAX_AGE_HOURS]) (by norm_num))

/-- C1: every source's base weight enters `total_base_weight` regardless of
age, while a source older than `max_age_hours` contributes nothing to
`weighted_sum`, `total_weight` or `sources_used`; concretely, adding a stale
positive-weight source to one fresh full-confidence source leaves the best
estimate unchanged (7) and strictly lowers the confidence from 1 to 1/2. -/
theorem stale_sources_raise_denominator_only :
    (∀ (sources : List DataSource) (m : ℤ) (n : Datetime) (d : ℝ),
      (fuseFold sources m n d).total_base_weight =
        (sources.map resolvedWeight).sum) ∧
    (∀ (sources : List DataSource) (stale : DataSource) (m : ℤ) (n : Datetime)
        (d : ℝ), ageHoursUTC stale.timestamp n > (m : ℝ) →
      fuseFold (sources ++ [stale]) m n d =
        ⟨(fuseFold sources m n d).weighted_sum,
          (fuseFold sources m n d).total_weight,
          (fuseFold sources m n d).sources_used,
          (fuseFold sources m n d).total_base_weight + resolvedWeight stale⟩) ∧
    fuse_measurements [⟨"resort_official", 7, ⟨0, some 0⟩, 1, some 1⟩]
        24 ⟨0, some 0⟩ DECAY_RATE = some (some ⟨7, 1, 1, 1⟩) ∧
    fuse_measurements [⟨"resort_official", 7, ⟨0, some 0⟩, 1, some 1⟩,
        ⟨"snotel", 100, ⟨-90000, some 0⟩, 1, some 1⟩]
        24 ⟨0, some 0⟩ DECAY_RATE = some (some ⟨7, 1/2, 1, 2⟩) ∧
    (FusionResult.mk 7 (1/2) 1 2).best_estimate =
      (FusionResult.mk 7 1 1 1).best_estimate ∧
    (FusionResult.mk 7 (1/2) 1 2).confidence <
      (FusionResult.mk 7 1 1 1).confidence := by
  refine ⟨?_, ?_, ?_, ?_, rfl, by norm_num⟩
  · intro sources m n d
    unfold fuseFold
    rw [fuseFold_total_base m n d sources ⟨0, 0, 0, 0⟩]
    exact zero_add _
  · intro sources stale m n d h
    unfold fuseFold
    rw [List.foldl_append, List.foldl_cons, List.foldl_nil,
      fuseStepTotal_stale m n d _ stale h]
  · exact fuse_single_fresh "resort_official" 7 ⟨0, some 0⟩ ⟨0, some 0⟩ 1 24
      DECAY_RATE (ageHoursUTC_self ⟨0, some 0⟩) (by norm_num) (by norm_num)
  · have hfold : fuseFold [⟨"resort_official", 7, ⟨0, some 0⟩, 1, some 1⟩,
        ⟨"snotel", 100, ⟨-90000, some 0⟩, 1, some 1⟩] 24 ⟨0, some 0⟩ DECAY_RATE =
        ⟨7, 1, 1, 2⟩ := by
      unfold fuseFold
      rw [List.foldl_cons,
        fuseStepTotal_fresh 24 ⟨0, some 0⟩ DECAY_RATE ⟨0, 0, 0, 0⟩
          ⟨"resort_official", 7, ⟨0, some 0⟩, 1, some 1⟩
          (by norm_num [ageHoursUTC, toUTCSeconds]) (by norm_num),
        List.foldl_cons, List.foldl_nil,
        fuseStepTotal_stale 24 ⟨0, some 0⟩ DECAY_RATE _
          ⟨"snotel", 100, ⟨-90000, some 0⟩, 1, some 1⟩
          (by norm_num [ageHoursUTC, toUTCSeconds])]
      simp only [FuseState.mk.injEq, resolvedWeight]
      norm_num
    rw [fuse_measurements_cons, hfold]
    rw [if_neg (by norm_num)]
    rw [if_pos (show (⟨7, 1, 1, 2⟩ : FuseState).total_base_weight > 0 by norm_num)]
    have hbest : (⟨7, 1, 1, 2⟩ : FuseState).weighted_sum /
        (⟨7, 1, 1, 2⟩ : FuseState).total_weight = 7 := by norm_num
    have hconf : min 1 ((⟨7, 1, 1, 2⟩ : FuseState).total_weight /
        (⟨7, 1, 1, 2⟩ : FuseState).total_base_weight) = 1 / 2 := by
      rw [show (⟨7, 1, 1, 2⟩ : FuseState).total_weight /
        (⟨7, 1, 1, 2⟩ : FuseState).total_base_weight = (1 : ℝ) / 2 from rfl]
      exact min_eq_right (by norm_num)
    rw [hbest, hconf]
    rfl

/-- Witness for C1: the stale-append law discharged on a concrete stale
source (age 25 h against a 24 h cutoff): only the denominator accumulator
moves. -/
theorem stale_sources_raise_denominator_only_witness :
    fuseFold ([] ++ [⟨"snotel", 100, ⟨-90000, some 0⟩, 1, some 1⟩])
        24 ⟨0, some 0⟩ DECAY_RATE =
      ⟨0, 0, 0, 0 + 1⟩ := by
  have h := stale_sources_raise_denominator_only.2.1 []
    ⟨"snotel", 100, ⟨-90000, some 0⟩, 1, some 1⟩ 24 ⟨0, some 0⟩ DECAY_RATE
    (by norm_num [ageHoursUTC, toUTCSeconds])
  simpa [fuseFold, resolvedWeight] using h

/-- C7: `calculate_age_factor` returns 1 for negative ages (future
timestamps) and `decay_rate ^ age_hours` for nonnegative ages; in particular
`calculate_age_factor 0 = 1` and `calculate_age_factor 24 = decay_rate ^ 24`,
and for `0 < decay_rate < 1` it is monotonically non-increasing in the age. -/
theorem age_factor_spec :
    (∀ age_hours decay_rate : ℝ, age_hours < 0 →
      calculate_age_factor age_hours decay_rate = 1) ∧
    (∀ age_hours decay_rate : ℝ, 0 ≤ age_hours →
      calculate_age_factor age_hours decay_rate = decay_rate ^ age_hours) ∧
    (∀ decay_rate : ℝ, calculate_age_factor 0 decay_rate = 1) ∧
    (∀ decay_rate : ℝ, calculate_age_factor 24 decay_rate = decay_rate ^ (24 : ℝ)) ∧
    (∀ decay_rate a b : ℝ, 0 < decay_rate → decay_rate < 1 → a ≤ b →
      calculate_age_factor b decay_rate ≤ calculate_age_factor a decay_rate) := by
  refine ⟨?_, ?_, ?_, ?_, ?_⟩
  · intro a d ha
    simp [calculate_age_factor, ha]
  · intro a d ha
    simp [calculate_age_factor, not_lt.mpr ha]
  · intro d
    simp [calculate_age_factor, Real.rpow_zero]
  · intro d
    norm_num [calculate_age_factor]
  · intro d a b hd0 hd1 hab
    unfold calculate_age_factor
    split_ifs with hb ha ha
    · exact le_refl 1
    · linarith
    · exact Real.rpow_le_one hd0.le hd1.le (by linarith)
    · exact Real.rpow_le_rpow_of_exponent_ge hd0 hd1.le hab

/-- Witness for C7: the hypotheses discharged at concrete ages and rates. -/
theorem age_factor_spec_witness :
    calculate_age_factor (-1) (1/2) = 1 ∧
    calculate_age_factor 2 (1/2) = (1/2 : ℝ) ^ (2 : ℝ) ∧
    calculate_age_factor 0 (1/2) = 1 ∧
    calculate_age_factor 3 (1/2) ≤ calculate_age_factor 2 (1/2) :=
  ⟨age_factor_spec.1 (-1) (1/2) (by norm_num),
    age_factor_spec.2.1 2 (1/2) (by norm_num),
    age_factor_spec.2.2.1 (1/2),
    age_factor_spec.2.2.2.2 (1/2) 2 3 (by norm_num) (by norm_num) (by norm_num)⟩

/-- C8: `calculate_age_hours` never subtracts a naive from an aware instant:
any naive value gets UTC attached first, so the function always returns the
age `(current_time_utc - timestamp_utc) / 3600` and never hits the
`TypeError` path of raw datetime subtraction (which the last two conjuncts
show does exist for mixed operands). -/
theorem age_hours_total_utc :
    (∀ timestamp current_time : Datetime,
      calculate_age_hours timestamp current_time =
        some (ageHoursUTC timestamp current_time)) ∧
    (∀ a b : Datetime, a.tz = none → b.tz ≠ none → dtSub a b = none) ∧
    (∀ a b : Datetime, a.tz ≠ none → b.tz = none → dtSub a b = none) := by
  refine ⟨calculate_age_hours_eq, ?_, ?_⟩
  · intro a b ha hb
    rcases a with ⟨wa, _ | oa⟩ <;> rcases b with ⟨wb, _ | ob⟩ <;> simp_all [dtSub]
  · intro a b ha hb
    rcases a with ⟨wa, _ | oa⟩ <;> rcases b with ⟨wb, _ | ob⟩ <;> simp_all [dtSub]

/-- Witness for C8: a naive timestamp against an aware clock still yields an
age (here 1 hour), while the raw mixed subtraction is the error case. -/
theorem age_hours_total_utc_witness :
    calculate_age_hours ⟨7200, none⟩ ⟨10800, some 0⟩ = some 1 ∧
    dtSub ⟨7200, none⟩ ⟨10800, some 0⟩ = none := by
  constructor
  · rw [age_hours_total_utc.1 ⟨7200, none⟩ ⟨10800, some 0⟩]
    norm_num [ageHoursUTC, toUTCSeconds]
  · exact age_hours_total_utc.2.1 ⟨7200, none⟩ ⟨10800, some 0⟩ rfl (by simp)

/-- C9: a `DataSource` built without an explicit weight gets its weight from
the fixed table (`resort_official` 0.5, `snotel` 0.4, `weather_api` 0.1,
anything else 0.1), both through the dataclass constructor and through the
`create_data_source` factory; an explicit weight is preserved; and the
weight field is populated (and is what `fuse_measurements` resolves) for
every constructed source. -/
theorem source_weight_defaulting :
    get_source_weight "resort_official" = 0.5 ∧
    get_source_weight "snotel" = 0.4 ∧
    get_source_weight "weather_api" = 0.1 ∧
    (∀ name : String, name ≠ "resort_official" → name ≠ "snotel" →
      name ≠ "weather_api" → get_source_weight name = 0.1) ∧
    (∀ (name : String) (v : ℝ) (ts : Datetime) (c : ℝ),
      DataSource.create name v ts c none =
        ⟨name, v, ts, c, some (get_source_weight name)⟩) ∧
    (∀ (name : String) (v : ℝ) (ts : Datetime) (c w : ℝ),
      DataSource.create name v ts c (some w) = ⟨name, v, ts, c, some w⟩) ∧
    (∀ (name : String) (v : ℝ) (ts : Datetime) (c : ℝ),
      create_data_source name v ts c none = DataSource.create name v ts c none) ∧
    (∀ (name : String) (v : ℝ) (ts : Datetime) (c w : ℝ),
      create_data_source name v ts c (some w) = ⟨name, v, ts, c, some w⟩) ∧
    (∀ (name : String) (v : ℝ) (ts : Datetime) (c : ℝ) (w : Option ℝ),
      (DataSource.create name v ts c w).weight =
        some (resolvedWeight (DataSource.create name v ts c w))) := by
  refine ⟨by rw [get_source_weight, sourceWeightsGet, if_pos rfl],
    by rw [get_source_weight, sourceWeightsGet, if_neg (by decide), if_pos rfl],
    by rw [get_source_weight, sourceWeightsGet, if_neg (by decide),
      if_neg (by decide), if_pos rfl], ?_, ?_, ?_, ?_, ?_, ?_⟩
  · intro name h1 h2 h3
    simp [get_source_weight, sourceWeightsGet, h1, h2, h3]
  · intro name v ts c
    rfl
  · intro name v ts c w
    rfl
  · intro name v ts c
    rfl
  · intro name v ts c w
    rfl
  · intro name v ts c w
    cases w <;> rfl

/-- Witness for C9: the table hypotheses discharged at an unknown name. -/
theorem source_weight_defaulting_witness :
    get_source_weight "some_blog" = 0.1 ∧
    DataSource.create "some_blog" 3 ⟨0, none⟩ 1 none =
      ⟨"some_blog", 3, ⟨0, none⟩, 1, some (get_source_weight "some_blog")⟩ :=
  ⟨source_weight_defaulting.2.2.2.1 "some_blog" (by decide) (by decide) (by decide),
    source_weight_defaulting.2.2.2.2.1 "some_blog" 3 ⟨0, none⟩ 1⟩

end Snowspot
